import Mathlib

/-!
Verification of the sales-lead synthetic-data Generator
(`src/ml_model/01_generate_dataset.py`) and the Trainer/Evaluator
(`src/ml_model/02_train_evaluate_model.py`) against their design
specification.  Python floats are embedded as rationals, NumPy batch
operations as list/record operations, and the shared NumPy random stream
as explicitly passed values.
-/

namespace SalesCopilot

/-! ## Generator data model (01_generate_dataset.py) -/

/-- The fixed `BUSINESS_TYPES` vocabulary of the generator. -/
inductive BusinessType
  | Restaurant
  | Retail
  | Services
  deriving DecidableEq, Repr

/-- The fixed `PRIORITY_LEVELS` vocabulary of the generator. -/
inductive Priority
  | Low
  | Medium
  | High
  deriving DecidableEq, Repr

/-- One sampled lead: the eight feature columns built in `generate_synthetic_data`
before the label is derived.  Integer-valued columns are embedded as rationals,
as the Python code immediately uses them in float arithmetic. -/
structure Lead where
  business_type : BusinessType
  rating : ℚ
  user_ratings_total : ℚ
  deal_value : ℚ
  priority : Priority
  time_in_pipeline : ℚ
  documents_verified_count : ℚ
  contacts_count : ℚ
  deriving DecidableEq, Repr

/-- `BASE_CONVERSION_RATE = 0.10`. -/
def BASE_CONVERSION_RATE : ℚ := 10 / 100

/-- Deal-value effect: `(deal_value / deal_value.max()) * 0.20`.
`dealMax` is the batch maximum of the `deal_value` column. -/
def dealValueEffect (dealMax dv : ℚ) : ℚ := dv / dealMax * (20 / 100)

/-- Rating effect: `(rating / 5.0) * 0.10`. -/
def ratingEffect (r : ℚ) : ℚ := r / 5 * (10 / 100)

/-- Review-count effect: `(user_ratings_total / user_ratings_total.max()) * 0.05`.
`reviewsMax` is the batch maximum of the `user_ratings_total` column. -/
def reviewCountEffect (reviewsMax urt : ℚ) : ℚ := urt / reviewsMax * (5 / 100)

/-- Document-verification effect: `(documents_verified_count / 6.0) * 0.25`. -/
def docVerifiedEffect (d : ℚ) : ℚ := d / 6 * (25 / 100)

/-- The `priority_map` lookup: Low maps to -0.05, Medium to 0.05, High to 0.15. -/
def priorityEffect : Priority → ℚ
  | .Low => -(5 / 100)
  | .Medium => 5 / 100
  | .High => 15 / 100

/-- Business-type bonus: the masked update
`conversion_probability[df["business_type"] == "Restaurant"] += 0.05`
adds 0.05 exactly on Restaurant rows and leaves the others unchanged. -/
def businessTypeBonus (b : BusinessType) : ℚ :=
  if b = BusinessType.Restaurant then 5 / 100 else 0

/-- Pipeline-time penalty magnitude: `((time_in_pipeline - 45) / 45).abs() * 0.05`.
The generator subtracts this value from the accumulated probability. -/
def pipelinePenalty (t : ℚ) : ℚ := |(t - 45) / 45| * (5 / 100)

/-- `np.clip(x, 0.01, 0.99)`, i.e. `np.minimum(0.99, np.maximum(x, 0.01))`. -/
def clipProbability (x : ℚ) : ℚ := min (99 / 100) (max (1 / 100) x)

/-- The per-record conversion probability of `generate_synthetic_data`:
start from `BASE_CONVERSION_RATE`, apply the seven `+=`/`-=` updates in
source order, add the Gaussian noise sample (`add_noise`, line 65), and
clip to [0.01, 0.99] (line 68).  `noise` is the record's draw from
`np.random.normal(0, 0.1)`. -/
def conversionProbability (dealMax reviewsMax : ℚ) (l : Lead) (noise : ℚ) : ℚ :=
  clipProbability
    (BASE_CONVERSION_RATE
      + dealValueEffect dealMax l.deal_value
      + ratingEffect l.rating
      + reviewCountEffect reviewsMax l.user_ratings_total
      + docVerifiedEffect l.documents_verified_count
      + priorityEffect l.priority
      + businessTypeBonus l.business_type
      - pipelinePenalty l.time_in_pipeline
      + noise)

/-- The same record's pre-clip value: everything of `conversionProbability`
except the final `np.clip` (the value on line 65 after `add_noise`). -/
def preClipProbability (dealMax reviewsMax : ℚ) (l : Lead) (noise : ℚ) : ℚ :=
  BASE_CONVERSION_RATE
    + dealValueEffect dealMax l.deal_value
    + ratingEffect l.rating
    + reviewCountEffect reviewsMax l.user_ratings_total
    + docVerifiedEffect l.documents_verified_count
    + priorityEffect l.priority
    + businessTypeBonus l.business_type
    - pipelinePenalty l.time_in_pipeline
    + noise

/-- The spec's named additive effects in the order §4.1 step 3 lists them:
deal-value, rating, review-count, document-verification, priority,
business-type bonus, pipeline-time penalty (the last entering negatively,
as a subtracted term). -/
def specEffectsInOrder (dealMax reviewsMax : ℚ) (l : Lead) : List ℚ :=
  [dealValueEffect dealMax l.deal_value,
   ratingEffect l.rating,
   reviewCountEffect reviewsMax l.user_ratings_total,
   docVerifiedEffect l.documents_verified_count,
   priorityEffect l.priority,
   businessTypeBonus l.business_type,
   -pipelinePenalty l.time_in_pipeline]

/-- The conversion probability as §4.1 describes it: initialize to the base
rate, fold the named effects over it in the listed order, then add the noise
sample, then clip.  Compared against the source-derived
`conversionProbability` for the refinement claim C2. -/
def spec_conversionProbability (dealMax reviewsMax : ℚ) (l : Lead) (noise : ℚ) : ℚ :=
  clipProbability
    (((specEffectsInOrder dealMax reviewsMax l).foldl (· + ·) BASE_CONVERSION_RATE) + noise)

/-- The `converted` target: `(np.random.rand(...) < conversion_probability).astype(int)`
per record, where `u` is the record's uniform draw and `p` its clipped
probability. -/
def convertedLabel (p u : ℚ) : ℤ := if u < p then 1 else 0

/-- The NumPy random-stream operations `generate_synthetic_data` performs, in
program order. `Seed` stands for `np.random.seed`; the remaining constructors
stand for the sampling calls of the script. -/
inductive RandOp
  | Seed
  | Choice
  | Uniform
  | Randint
  | Lognormal
  | Normal
  | Rand
  deriving DecidableEq, Repr

/-- The ordered trace of `np.random.*` calls executed by a run of
`generate_synthetic_data` (lines 29-36: choice, uniform, randint, lognormal,
choice, randint, randint, randint; line 65 via `add_noise`: normal; line 71:
rand).  No seeding call occurs anywhere in the script. -/
def generatorRandOps : List RandOp :=
  [RandOp.Choice, RandOp.Uniform, RandOp.Randint, RandOp.Lognormal,
   RandOp.Choice, RandOp.Randint, RandOp.Randint, RandOp.Randint,
   RandOp.Normal, RandOp.Rand]

/-! ## Generator theorems -/

/-- C1: for every generated record, the clipped conversion probability that
parametrizes the Bernoulli draw lies in [0.01, 0.99], whatever the sampled
features, batch maxima and noise draw are. -/
theorem clipped_probability_in_unit_band (dealMax reviewsMax : ℚ) (l : Lead) (noise : ℚ) :
    1 / 100 ≤ conversionProbability dealMax reviewsMax l noise ∧
      conversionProbability dealMax reviewsMax l noise ≤ 99 / 100 := by
  unfold conversionProbability clipProbability
  constructor
  · exact le_min (by norm_num) (le_max_left _ _)
  · exact min_le_left _ _

/-- C2: the source-order construction of the conversion probability (base
rate, then the seven effects as consecutive `+=`/`-=` updates, then noise,
then clip) coincides with the spec's description: fold the named effects in
the listed order over the base rate, add the noise after all additive
effects, and clip only after the noise. -/
theorem conversion_probability_effect_order (dealMax reviewsMax : ℚ) (l : Lead) (noise : ℚ) :
    conversionProbability dealMax reviewsMax l noise =
      spec_conversionProbability dealMax reviewsMax l noise := by
  unfold conversionProbability spec_conversionProbability specEffectsInOrder
  simp only [List.foldl]
  ring_nf

/-- C3: the final label equals 1 exactly when the record's independent
uniform draw is strictly below its clipped conversion probability, equals 0
otherwise, and in all cases lies in {0, 1}. -/
theorem converted_label_bernoulli (dealMax reviewsMax : ℚ) (l : Lead) (noise u : ℚ) :
    (convertedLabel (conversionProbability dealMax reviewsMax l noise) u = 1 ↔
        u < conversionProbability dealMax reviewsMax l noise) ∧
      (convertedLabel (conversionProbability dealMax reviewsMax l noise) u = 0 ↔
        ¬u < conversionProbability dealMax reviewsMax l noise) ∧
      (convertedLabel (conversionProbability dealMax reviewsMax l noise) u = 0 ∨
        convertedLabel (conversionProbability dealMax reviewsMax l noise) u = 1) := by
  unfold convertedLabel
  by_cases h : u < conversionProbability dealMax reviewsMax l noise <;>
    simp [h]

/-- C8: the pipeline-time contribution is subtracted from the accumulated
probability, its magnitude is the fixed weight 0.05 times the absolute
deviation of `time_in_pipeline` from the sweet spot 45 divided by the scale
45, it is symmetric about 45 (equal deviations shorter or longer are
penalized equally), and it is non-monotonic: the subtracted contribution
strictly increases from t = 1 to t = 45 and strictly decreases from t = 45
to t = 89. -/
theorem pipeline_penalty_shape :
    (∀ dealMax reviewsMax : ℚ, ∀ l : Lead, ∀ noise : ℚ,
        preClipProbability dealMax reviewsMax l noise =
          BASE_CONVERSION_RATE
            + dealValueEffect dealMax l.deal_value
            + ratingEffect l.rating
            + reviewCountEffect reviewsMax l.user_ratings_total
            + docVerifiedEffect l.documents_verified_count
            + priorityEffect l.priority
            + businessTypeBonus l.business_type
            + noise
            - pipelinePenalty l.time_in_pipeline) ∧
      (∀ t : ℚ, pipelinePenalty t = 5 / 100 * (|t - 45| / 45)) ∧
      (∀ d : ℚ, pipelinePenalty (45 + d) = pipelinePenalty (45 - d)) ∧
      (-pipelinePenalty 1 < -pipelinePenalty 45 ∧
        -pipelinePenalty 89 < -pipelinePenalty 45) := by
  refine ⟨fun dealMax reviewsMax l noise => by unfold preClipProbability; ring,
    fun t => by
      unfold pipelinePenalty
      rw [abs_div, show |(45 : ℚ)| = 45 from by norm_num]
      ring,
    fun d => ?_, by norm_num [pipelinePenalty]⟩
  unfold pipelinePenalty
  have h : |(45 + d - 45) / 45| = |(45 - d - 45) / 45| := by
    rw [show (45 + d - 45 : ℚ) = d by ring, show (45 - d - 45 : ℚ) = -d by ring,
      neg_div, abs_neg]
  rw [h]

/-- C4 (code evaluation): the random-stream trace of `generate_synthetic_data`
contains no seeding operation: the script never calls `np.random.seed`, so it
draws from whatever state the process-wide stream happens to be in, and two
independent runs are not reproducible. -/
theorem generator_never_seeds : generatorRandOps.count RandOp.Seed = 0 := by
  decide

/-! ## Trainer/Evaluator embedding (02_train_evaluate_model.py) -/

/-- `NUMERIC_FEATURES` of the trainer. -/
def NUMERIC_FEATURES : List String :=
  ["rating", "user_ratings_total", "deal_value", "time_in_pipeline",
   "documents_verified_count", "contacts_count"]

/-- `CATEGORICAL_FEATURES` of the trainer. -/
def CATEGORICAL_FEATURES : List String :=
  ["business_type", "priority"]

/-- `TARGET_COLUMN`. -/
def TARGET_COLUMN : String := "converted"

/-- The columns selected into the feature matrix `X` on line 145:
`df[NUMERIC_FEATURES + CATEGORICAL_FEATURES]`. -/
def featureColumns : List String := NUMERIC_FEATURES ++ CATEGORICAL_FEATURES

/-- Column selection `df[cols]`: a dataframe is embedded as a map from column
name to the column's values (CSV cells, hence strings). -/
def selectColumns (df : String → List String) (cols : List String) :
    List (String × List String) :=
  cols.map fun c => (c, df c)

/-- The feature matrix handed to every model's fit and predict. -/
def modelInputMatrix (df : String → List String) : List (String × List String) :=
  selectColumns df featureColumns

/-- The exact message of the `FileNotFoundError` raised by `load_dataset`. -/
def datasetMissingMessage : String :=
  "Dataset not found. Please run 01_generate_dataset.py before training."

/-- `load_dataset`: the filesystem is embedded as a partial map from path to
file content; `path.exists()` is `(fs path).isSome`, `pd.read_csv` returns the
content, and the raised `FileNotFoundError` is the `Except.error` branch. -/
def load_dataset (fs : String → Option (List (String → List String)))
    (path : String) : Except String (List (String → List String)) :=
  match fs path with
  | none => Except.error datasetMissingMessage
  | some df => Except.ok df

/-! ### Metrics (`evaluate_model`, lines 82-93)

The `sklearn.metrics` calls are external library functions; they are embedded
here with the arguments the source passes, following their documented
behavior: `precision_score`, `recall_score` and `f1_score` are called with
`zero_division=0`, so a zero denominator yields 0; `accuracy_score` is the
fraction of matching labels; `roc_auc_score` has no such escape hatch and
raises `ValueError("Only one class present in y_true. ...")` when the test
labels are a single class. -/

/-- True positives of a prediction vector against the true labels. -/
def countTP (yt yp : List Bool) : ℕ :=
  (yt.zip yp).countP fun x => x.1 && x.2

/-- False positives. -/
def countFP (yt yp : List Bool) : ℕ :=
  (yt.zip yp).countP fun x => !x.1 && x.2

/-- False negatives. -/
def countFN (yt yp : List Bool) : ℕ :=
  (yt.zip yp).countP fun x => x.1 && !x.2

/-- `accuracy_score(y_test, y_pred)`. -/
def accuracy_score (yt yp : List Bool) : ℚ :=
  ((yt.zip yp).countP fun x => x.1 == x.2 : ℚ) / (yt.length : ℚ)

/-- `precision_score(y_test, y_pred, zero_division=0)`. -/
def precision_score (yt yp : List Bool) : ℚ :=
  if countTP yt yp + countFP yt yp = 0 then 0
  else (countTP yt yp : ℚ) / ((countTP yt yp : ℚ) + (countFP yt yp : ℚ))

/-- `recall_score(y_test, y_pred, zero_division=0)`. -/
def recall_score (yt yp : List Bool) : ℚ :=
  if countTP yt yp + countFN yt yp = 0 then 0
  else (countTP yt yp : ℚ) / ((countTP yt yp : ℚ) + (countFN yt yp : ℚ))

/-- `f1_score(y_test, y_pred, zero_division=0)`, in its
`2*TP / (2*TP + FP + FN)` form. -/
def f1_score (yt yp : List Bool) : ℚ :=
  if 2 * countTP yt yp + countFP yt yp + countFN yt yp = 0 then 0
  else (2 * countTP yt yp : ℚ) /
    ((2 * countTP yt yp : ℚ) + (countFP yt yp : ℚ) + (countFN yt yp : ℚ))

/-- The `ValueError` message `sklearn.metrics.roc_auc_score` raises on a
single-class `y_true`. -/
def rocAucOneClassMessage : String :=
  "Only one class present in y_true. ROC AUC score is not defined in that case."

/-- The defined value of ROC-AUC (Mann-Whitney form: the probability that a
positive outscores a negative, ties counting half). -/
def aucValue (yt : List Bool) (ys : List ℚ) : ℚ :=
  let pairs := yt.zip ys
  let pos := (pairs.filter fun x => x.1).map fun x => x.2
  let neg := (pairs.filter fun x => !x.1).map fun x => x.2
  ((pos.map fun p =>
      ((neg.countP fun n => n < p : ℚ) + (neg.countP fun n => n == p : ℚ) / 2)).sum) /
    ((pos.length : ℚ) * (neg.length : ℚ))

/-- `roc_auc_score(y_test, y_prob)`: raises when `y_test` holds one class. -/
def roc_auc_score (yt : List Bool) (ys : List ℚ) : Except String ℚ :=
  if yt.all (fun b => b) || yt.all (fun b => !b) then
    Except.error rocAucOneClassMessage
  else
    Except.ok (aucValue yt ys)

/-- The five-metric record built by `evaluate_model`. -/
structure Metrics where
  accuracy : ℚ
  precision : ℚ
  recall_val : ℚ
  f1 : ℚ
  roc_auc : ℚ
  deriving DecidableEq, Repr

/-- `evaluate_model`: builds the metrics dict from the test labels, the hard
predictions and the positive-class probabilities.  The uncaught `ValueError`
from `roc_auc_score` propagates out as the error branch. -/
def evaluate_model (y_test y_pred : List Bool) (y_prob : List ℚ) :
    Except String Metrics :=
  match roc_auc_score y_test y_prob with
  | Except.error e => Except.error e
  | Except.ok auc =>
      Except.ok
        { accuracy := accuracy_score y_test y_pred
          precision := precision_score y_test y_pred
          recall_val := recall_score y_test y_pred
          f1 := f1_score y_test y_pred
          roc_auc := auc }

/-! ## Trainer theorems: dataset loading and metric degeneracy -/

/-- C5: `load_dataset` fails, with the exact message telling the caller to
run the Generator first, precisely when the prerequisite dataset file does
not exist; when the file exists it returns its content and nothing else
happens. -/
theorem load_dataset_missing_input
    (fs : String → Option (List (String → List String))) (path : String) :
    (load_dataset fs path = Except.error datasetMissingMessage ↔ fs path = none) ∧
      (∀ df, fs path = some df → load_dataset fs path = Except.ok df) := by
  refine ⟨⟨fun h => ?_, fun h => by simp [load_dataset, h]⟩,
    fun df h => by simp [load_dataset, h]⟩
  cases hfs : fs path with
  | none => rfl
  | some df => simp [load_dataset, hfs] at h

/-- Witness for C5: a filesystem without the dataset file makes
`load_dataset` fail with the designed message, and one with the file makes
it succeed. -/
theorem load_dataset_missing_input_witness :
    load_dataset (fun _ => none) "synthetic_sales_leads.csv" =
        Except.error datasetMissingMessage ∧
      load_dataset (fun _ => some []) "synthetic_sales_leads.csv" = Except.ok [] :=
  ⟨(load_dataset_missing_input (fun _ => none) "synthetic_sales_leads.csv").1.mpr rfl,
   (load_dataset_missing_input (fun _ => some []) "synthetic_sales_leads.csv").2 [] rfl⟩

/-- C6 (counterexample): on a single-class test partition (all labels
negative), ROC-AUC is undefined and `evaluate_model` propagates the library
error instead of substituting the default zero, so not every degenerate
metric is recovered locally. -/
theorem metrics_degeneracy_counterexample :
    evaluate_model [false, false] [false, true] [1 / 2, 1 / 4] =
      Except.error rocAucOneClassMessage := rfl

/-- C6 (amended): the three threshold metrics called with `zero_division=0`
(precision, recall, F1) substitute the default zero when their denominator
degenerates to zero, but ROC-AUC on a single-class test partition is not
recovered: `evaluate_model` propagates the error. -/
theorem metrics_degeneracy_defaults (yt yp : List Bool) (ys : List ℚ) :
    (countTP yt yp + countFP yt yp = 0 → precision_score yt yp = 0) ∧
      (countTP yt yp + countFN yt yp = 0 → recall_score yt yp = 0) ∧
      (2 * countTP yt yp + countFP yt yp + countFN yt yp = 0 → f1_score yt yp = 0) ∧
      (yt.all (fun b => b) = true ∨ yt.all (fun b => !b) = true →
        evaluate_model yt yp ys = Except.error rocAucOneClassMessage) := by
  refine ⟨fun h => by simp [precision_score, h], fun h => by simp [recall_score, h],
    fun h => by simp [f1_score, h], fun h => ?_⟩
  unfold evaluate_model roc_auc_score
  rcases h with h | h <;> simp [h]

/-- Witness for C6 (amended): at an all-negative test partition with
all-negative predictions every threshold metric denominator is zero and the
substituted value is zero, while `evaluate_model` surfaces the ROC-AUC
error. -/
theorem metrics_degeneracy_defaults_witness :
    precision_score [false, false] [false, false] = 0 ∧
      recall_score [false, false] [false, false] = 0 ∧
      f1_score [false, false] [false, false] = 0 ∧
      evaluate_model [false, false] [false, false] [1 / 2, 1 / 4] =
        Except.error rocAucOneClassMessage := by
  have h := metrics_degeneracy_defaults [false, false] [false, false] [1 / 2, 1 / 4]
  exact ⟨h.1 (by decide), h.2.1 (by decide), h.2.2.1 (by decide),
    h.2.2.2 (Or.inr (by decide))⟩

/-! ### Preprocessing transform (`build_preprocessor`, lines 52-71)

The `ColumnTransformer` of the source applies a `StandardScaler` to the six
numeric columns and a `OneHotEncoder(handle_unknown="ignore")` (dense output,
`build_one_hot_encoder`) to the two categorical columns.  Both are external
library components, embedded per their documented fit/transform contract. -/

/-- One row of the loaded dataset as the trainer types it: six numeric
feature columns and the two categorical ones as strings. -/
structure TrainRow where
  rating : ℚ
  user_ratings_total : ℚ
  deal_value : ℚ
  time_in_pipeline : ℚ
  documents_verified_count : ℚ
  contacts_count : ℚ
  business_type : String
  priority : String
  deriving DecidableEq, Repr

/-- The fitted category vocabulary of a `OneHotEncoder` column: the distinct
values seen at fit time, in sorted order (`np.unique`). -/
def fitCategories (col : List String) : List String :=
  (col.dedup).insertionSort (· ≤ ·)

/-- The encoder's indicator row for one categorical value: one column per
fitted category, 1 where the value matches and 0 elsewhere.  A value outside
the vocabulary matches nothing, so `handle_unknown="ignore"` encodes it as
all zeros instead of failing. -/
def oneHotTransform (cats : List String) (v : String) : List ℚ :=
  cats.map fun c => if v = c then 1 else 0

/-- Mean of a column. -/
def listMean (xs : List ℚ) : ℚ := xs.sum / (xs.length : ℚ)

/-- Population variance of a column (`ddof=0`, as `StandardScaler` uses). -/
def listVar (xs : List ℚ) : ℚ :=
  ((xs.map fun x => (x - listMean xs) ^ 2).sum) / (xs.length : ℚ)

/-- The statistics a fitted `StandardScaler` stores for one column: its
training mean (`mean_`) and training variance (`var_`; the stored `scale_`
is its square root). -/
structure FittedScaler where
  mean : ℚ
  var : ℚ
  deriving DecidableEq, Repr

/-- Fit of a `StandardScaler` on one training column. -/
def scalerFit (xs : List ℚ) : FittedScaler := ⟨listMean xs, listVar xs⟩

/-- The fitted state of the `ColumnTransformer`: one scaler per numeric
column, one category vocabulary per categorical column. -/
structure FittedPreprocessor where
  ratingScaler : FittedScaler
  userRatingsScaler : FittedScaler
  dealValueScaler : FittedScaler
  timeScaler : FittedScaler
  docsScaler : FittedScaler
  contactsScaler : FittedScaler
  businessTypeCategories : List String
  priorityCategories : List String
  deriving DecidableEq, Repr

/-- Fit of the preprocessor on the training split: every statistic and every
category vocabulary is derived from the training rows only. -/
def preprocessorFit (rows : List TrainRow) : FittedPreprocessor :=
  { ratingScaler := scalerFit (rows.map TrainRow.rating)
    userRatingsScaler := scalerFit (rows.map TrainRow.user_ratings_total)
    dealValueScaler := scalerFit (rows.map TrainRow.deal_value)
    timeScaler := scalerFit (rows.map TrainRow.time_in_pipeline)
    docsScaler := scalerFit (rows.map TrainRow.documents_verified_count)
    contactsScaler := scalerFit (rows.map TrainRow.contacts_count)
    businessTypeCategories := fitCategories (rows.map TrainRow.business_type)
    priorityCategories := fitCategories (rows.map TrainRow.priority) }

/-- One transformed row.  The library's numeric output is
`(x - mean_) / sqrt(var_)`; since the square root is irrational, each numeric
cell is embedded as the pair `(x - mean_, var_)` of training-derived data
that determines it.  Indicator cells are exact rationals. -/
structure EncodedRow where
  numeric : List (ℚ × ℚ)
  indicators : List ℚ
  deriving DecidableEq, Repr

/-- Transform of one row through the fitted preprocessor: numeric columns in
input order, then the indicator blocks of `business_type` and `priority`. -/
def preprocessorTransformRow (P : FittedPreprocessor) (r : TrainRow) : EncodedRow :=
  { numeric :=
      [(r.rating - P.ratingScaler.mean, P.ratingScaler.var),
       (r.user_ratings_total - P.userRatingsScaler.mean, P.userRatingsScaler.var),
       (r.deal_value - P.dealValueScaler.mean, P.dealValueScaler.var),
       (r.time_in_pipeline - P.timeScaler.mean, P.timeScaler.var),
       (r.documents_verified_count - P.docsScaler.mean, P.docsScaler.var),
       (r.contacts_count - P.contactsScaler.mean, P.contactsScaler.var)]
    indicators :=
      oneHotTransform P.businessTypeCategories r.business_type ++
        oneHotTransform P.priorityCategories r.priority }

/-- Batch transform: a pure map over the rows, with the fitted state
returned alongside, unchanged — the library's `transform` never refits. -/
def preprocessorTransformBatch (P : FittedPreprocessor) (rows : List TrainRow) :
    List EncodedRow × FittedPreprocessor :=
  (rows.map (preprocessorTransformRow P), P)

/-- A value outside the fitted vocabulary is encoded as the all-zero
indicator row. -/
theorem oneHotTransform_unseen (cats : List String) (v : String) (h : v ∉ cats) :
    oneHotTransform cats v = List.replicate cats.length 0 := by
  induction cats with
  | nil => rfl
  | cons c cs ih =>
      have hv : v ≠ c := fun hvc => h (hvc ▸ List.mem_cons_self c cs)
      have hcs : v ∉ cs := fun hm => h (List.mem_cons_of_mem c hm)
      show (if v = c then (1 : ℚ) else 0) :: oneHotTransform cs v =
        0 :: List.replicate cs.length 0
      rw [if_neg hv, ih hcs]

/-! ### Feature importance (`plot_feature_importance`, lines 111-136) -/

/-- Descending order on (feature, importance) rows. -/
def importanceGE (a b : String × ℚ) : Prop := b.2 ≤ a.2

instance : DecidableRel importanceGE :=
  fun a b => inferInstanceAs (Decidable (b.2 ≤ a.2))

instance : IsTotal (String × ℚ) importanceGE :=
  ⟨fun a b => le_total b.2 a.2⟩

instance : IsTrans (String × ℚ) importanceGE :=
  ⟨fun _ _ _ h1 h2 => le_trans h2 h1⟩

/-- `preprocessor.get_feature_names_out()`: the six numeric column names
under the `num` transformer, then one name per fitted category of each
categorical column under the `cat` transformer. -/
def get_feature_names_out (P : FittedPreprocessor) : List String :=
  (NUMERIC_FEATURES.map fun c => "num__" ++ c) ++
    (P.businessTypeCategories.map fun c => "cat__business_type_" ++ c) ++
    (P.priorityCategories.map fun c => "cat__priority_" ++ c)

/-- The table built by `plot_feature_importance`: the (name, importance)
pairs sorted by descending importance
(`sort_values("importance", ascending=False)`). -/
def feature_importance_table (P : FittedPreprocessor) (importances : List ℚ) :
    List (String × ℚ) :=
  List.insertionSort importanceGE ((get_feature_names_out P).zip importances)

/-! ## Trainer theorems: preprocessing, feature importance, model inputs -/

/-- C7: applying the preprocessor fitted on a training split to any test
batch leaves the fitted state unchanged, transforms every row (it cannot
fail), keeps the numeric statistics exactly those computed from the training
split, and encodes a categorical value unseen at fit time as all-zero
indicator columns for both categorical features. -/
theorem preprocessor_unseen_category_safe (train test : List TrainRow) :
    (preprocessorTransformBatch (preprocessorFit train) test).2 = preprocessorFit train ∧
      (preprocessorTransformBatch (preprocessorFit train) test).1.length = test.length ∧
      (preprocessorFit train).ratingScaler = scalerFit (train.map TrainRow.rating) ∧
      (∀ r : TrainRow, r.business_type ∉ (preprocessorFit train).businessTypeCategories →
        oneHotTransform (preprocessorFit train).businessTypeCategories r.business_type =
          List.replicate (preprocessorFit train).businessTypeCategories.length 0) ∧
      (∀ r : TrainRow, r.priority ∉ (preprocessorFit train).priorityCategories →
        oneHotTransform (preprocessorFit train).priorityCategories r.priority =
          List.replicate (preprocessorFit train).priorityCategories.length 0) := by
  refine ⟨rfl, ?_, rfl, fun r h => oneHotTransform_unseen _ _ h,
    fun r h => oneHotTransform_unseen _ _ h⟩
  simp [preprocessorTransformBatch]

/-- A concrete training row used to instantiate the trainer theorems. -/
def sampleRow : TrainRow :=
  { rating := 4, user_ratings_total := 100, deal_value := 5000,
    time_in_pipeline := 30, documents_verified_count := 3, contacts_count := 2,
    business_type := "Restaurant", priority := "High" }

/-- A concrete test row whose categorical values were never seen at fit
time. -/
def sampleRowUnseen : TrainRow :=
  { rating := 3, user_ratings_total := 50, deal_value := 1000,
    time_in_pipeline := 10, documents_verified_count := 1, contacts_count := 1,
    business_type := "Bakery", priority := "Urgent" }

/-- Witness for C7: fitting on one concrete row and transforming a row with
the unseen category `Bakery` yields the all-zero indicator block. -/
theorem preprocessor_unseen_category_safe_witness :
    oneHotTransform (preprocessorFit [sampleRow]).businessTypeCategories
        sampleRowUnseen.business_type =
      List.replicate (preprocessorFit [sampleRow]).businessTypeCategories.length 0 :=
  (preprocessor_unseen_category_safe [sampleRow] [sampleRowUnseen]).2.2.2.1
    sampleRowUnseen (by decide)

/-- C9: whenever the importance vector has one entry per encoded feature (as
`feature_importances_` does), the emitted feature-importance table has
exactly `NUMERIC_FEATURES.length` plus the number of distinct categories of
`business_type` plus the number of distinct categories of `priority` rows,
and its rows are sorted in descending order of importance. -/
theorem feature_importance_rows_and_order (train : List TrainRow)
    (importances : List ℚ)
    (h : importances.length = (get_feature_names_out (preprocessorFit train)).length) :
    (feature_importance_table (preprocessorFit train) importances).length =
        NUMERIC_FEATURES.length + (train.map TrainRow.business_type).dedup.length +
          (train.map TrainRow.priority).dedup.length ∧
      List.Sorted importanceGE (feature_importance_table (preprocessorFit train) importances) := by
  constructor
  · rw [feature_importance_table, List.length_insertionSort, List.length_zip, h, min_self]
    simp [get_feature_names_out, preprocessorFit, fitCategories,
      List.length_insertionSort]
    ring
  · exact List.sorted_insertionSort importanceGE _

/-- A concrete importance vector of the right length for a one-row fit. -/
def sampleImportances : List ℚ := [5, 4, 3, 2, 1, 1, 7, 6]

/-- Witness for C9: on a concrete one-row training split (one distinct
category per categorical feature) with eight importances, the table has
6 + 1 + 1 rows and is sorted descending. -/
theorem feature_importance_rows_and_order_witness :
    (feature_importance_table (preprocessorFit [sampleRow]) sampleImportances).length =
        NUMERIC_FEATURES.length + ([sampleRow].map TrainRow.business_type).dedup.length +
          ([sampleRow].map TrainRow.priority).dedup.length ∧
      List.Sorted importanceGE
        (feature_importance_table (preprocessorFit [sampleRow]) sampleImportances) :=
  feature_importance_rows_and_order [sampleRow] sampleImportances (by decide)

/-- C10: the feature matrix `X` selects exactly the six numeric and two
categorical columns, the `converted` target column is not among them, and
the matrix handed to fit/predict is unchanged by any modification of columns
outside that list — in particular the models never see the label column. -/
theorem model_inputs_exclude_target :
    TARGET_COLUMN ∉ featureColumns ∧
      featureColumns = NUMERIC_FEATURES ++ CATEGORICAL_FEATURES ∧
      ∀ df1 df2 : String → List String,
        (∀ c ∈ featureColumns, df1 c = df2 c) →
        modelInputMatrix df1 = modelInputMatrix df2 := by
  refine ⟨by decide, rfl, fun df1 df2 h => ?_⟩
  unfold modelInputMatrix selectColumns
  exact List.map_congr_left fun c hc => by rw [h c hc]

/-- Witness for C10: two dataframes that differ only in their `converted`
column produce the same model input matrix. -/
theorem model_inputs_exclude_target_witness :
    modelInputMatrix (fun c => if c = "converted" then ["1"] else []) =
      modelInputMatrix (fun c => if c = "converted" then ["0"] else []) :=
  model_inputs_exclude_target.2.2 _ _ (by decide)

end SalesCopilot
